import Mathlib

/-!
Verification development for the simulated brokerage service: the order
lifecycle engine (`broker/app.py` together with `broker/models.py`), the FIX
acceptor's outbound sequencing and order admission (`broker/fix_server.py`),
and the FIX message schemas (`broker/fix_schemas.py`), shallowly embedded as
executable Lean definitions.  Quantities are embedded as `Int` (Python ints),
prices as `ℚ` (Python floats round-trip exactly through `str`, so the rational
value is an adequate stand-in), and fallible handlers as `Except`/`Option`.
-/

namespace Broker

/-- `models.OrderSide`. -/
inductive OrderSide where
  | buy
  | sell
deriving DecidableEq, Repr

/-- `models.OrderType`. -/
inductive OrderType where
  | market
  | limit
deriving DecidableEq, Repr

/-- `models.TimeInForce`. -/
inductive TimeInForce where
  | day
  | gtc
  | ioc
  | fok
deriving DecidableEq, Repr

/-- `models.OrderStatus`. -/
inductive OrderStatus where
  | new
  | partially_filled
  | filled
  | canceled
  | rejected
deriving DecidableEq, Repr

/-- An execution row (`models.Execution`): the fields the lifecycle engine
reads back (quantity and price). -/
structure Execution where
  exec_quantity : Int
  exec_price : ℚ
deriving DecidableEq, Repr

/-- An order row (`models.Order`): the fields touched by the lifecycle
engine, together with its executions (the `executions` relationship). -/
structure Order where
  cl_ord_id : String
  sender_comp_id : String
  symbol : String
  side : OrderSide
  order_type : OrderType
  quantity : Int
  limit_price : Option ℚ
  time_in_force : TimeInForce
  status : OrderStatus
  filled_quantity : Int
  remaining_quantity : Int
  reject_reason : Option String
  executions : List Execution
deriving DecidableEq, Repr

/-- The content of an outbound ExecutionReport as assembled by
`FIXServer._send_execution_report` (fix_server.py lines 296-333).  `LeavesQty`
is not a parameter: the sender computes it as `order_qty - cum_qty`
(line 330). -/
structure WireReport where
  exec_type : String
  ord_status : String
  last_qty : Option Int
  last_px : Option ℚ
  cum_qty : Int
  avg_px : ℚ
  order_qty : Int
  leaves_qty : Int
deriving DecidableEq, Repr

/-- `FIXServer._send_execution_report`: build the report; `leaves_qty` is
derived from `order_qty` and `cum_qty`. -/
def send_execution_report (exec_type ord_status : String) (last_qty : Option Int)
    (last_px : Option ℚ) (cum_qty : Int) (avg_px : ℚ) (order_qty : Int) : WireReport :=
  { exec_type := exec_type
    ord_status := ord_status
    last_qty := last_qty
    last_px := last_px
    cum_qty := cum_qty
    avg_px := avg_px
    order_qty := order_qty
    leaves_qty := order_qty - cum_qty }

/-- The average-price computation of `execute_order` (app.py lines 237-239):
`Σ exec_quantity·exec_price` over the executions, divided by the filled
quantity when positive, else 0. -/
def avg_px_of (execs : List Execution) (filled : Int) : ℚ :=
  let total := execs.foldl (fun acc e => acc + (e.exec_quantity : ℚ) * e.exec_price) 0
  if filled > 0 then total / (filled : ℚ) else 0

/-- The limit-price admissibility gate of `execute_order`
(app.py lines 187-194).  Returns the error message when the fill is refused.
A limit order whose `limit_price` is absent makes the Python comparison raise
`TypeError`, which the endpoint's catch-all turns into an error with no state
change; that path is the `none` branch here. -/
def limit_check (o : Order) (exec_price : ℚ) : Option String :=
  if o.order_type = OrderType.limit then
    match o.limit_price with
    | none => some "TypeError"
    | some lp =>
      if o.side = OrderSide.buy ∧ lp < exec_price then some "Buy limit price too low"
      else if o.side = OrderSide.sell ∧ lp > exec_price then some "Sell limit price too high"
      else none
  else none

/-- The state updates of a successful fill in `execute_order`
(app.py lines 213-233): append the execution row, move `q` from remaining to
filled, and set the status from the new remaining quantity. -/
def apply_fill (o : Order) (q : Int) (exec_price : ℚ) : Order :=
  { o with
    executions := o.executions ++ [⟨q, exec_price⟩]
    filled_quantity := o.filled_quantity + q
    remaining_quantity := o.remaining_quantity - q
    status := if o.remaining_quantity - q = 0 then OrderStatus.filled
              else OrderStatus.partially_filled }

/-- The effective execution quantity of `execute_order`
(app.py lines 196-200): the full remaining quantity when no explicit quantity
was requested, else the request clamped by `min` to the remaining
quantity. -/
def eff_qty (o : Order) (req_qty : Option Int) : Int :=
  match req_qty with
  | none => o.remaining_quantity
  | some r => min r o.remaining_quantity

/-- The successful tail of `execute_order` (app.py lines 213-255): the updated
row together with the one execution report sent for it (`exec_type`/
`ord_status` are `"2"`/`"2"` on a full fill, `"1"`/`"1"` on a partial one;
`CumQty` is the new filled quantity; `AvgPx` is recomputed over all
executions including the new one). -/
def fill_result (o : Order) (q : Int) (exec_price : ℚ) : Order × WireReport :=
  (apply_fill o q exec_price,
   send_execution_report
     (if o.remaining_quantity - q = 0 then "2" else "1")
     (if o.remaining_quantity - q = 0 then "2" else "1")
     (some q) (some exec_price)
     (apply_fill o q exec_price).filled_quantity
     (avg_px_of (apply_fill o q exec_price).executions
       (apply_fill o q exec_price).filled_quantity)
     o.quantity)

/-- `app.execute_order` (app.py lines 161-262), as a function of the order
row, the symbol's reference price (`none` = symbol absent from the universe)
and the optional requested quantity.  Every error path in the source returns
before any mutation, so errors leave the order unchanged by construction.  On
success the endpoint sends exactly one execution report
(`send_execution_to_client`, lines 242-255). -/
def execute_order (o : Order) (stock_price : Option ℚ) (req_qty : Option Int) :
    Except String (Order × WireReport) :=
  if ¬(o.status = OrderStatus.new ∨ o.status = OrderStatus.partially_filled) then
    Except.error "Order cannot be executed"
  else
    match stock_price with
    | none => Except.error "Stock not found in universe"
    | some exec_price =>
      match limit_check o exec_price with
      | some msg => Except.error msg
      | none =>
        if o.time_in_force = TimeInForce.fok ∧ eff_qty o req_qty ≠ o.remaining_quantity then
          Except.error "FOK order must be filled completely"
        else
          Except.ok (fill_result o (eff_qty o req_qty) exec_price)

/-- `app.cancel_order` (app.py lines 270-307): only `new` and
`partially_filled` orders may be canceled; quantities are untouched; the
report carries `ExecType=4`, `OrdStatus=4`, the current filled quantity as
`CumQty`, and `avg_px=0` (the literal passed at line 295). -/
def cancel_order (o : Order) : Except String (Order × WireReport) :=
  if ¬(o.status = OrderStatus.new ∨ o.status = OrderStatus.partially_filled) then
    Except.error "Order cannot be canceled"
  else
    Except.ok ({ o with status := OrderStatus.canceled },
      send_execution_report "4" "4" none none o.filled_quantity 0 o.quantity)

/-- `app.reject_order` (app.py lines 313-354): only `new` orders may be
rejected; the reason is recorded. -/
def reject_order (o : Order) (reason : String) : Except String (Order × WireReport) :=
  if ¬(o.status = OrderStatus.new) then
    Except.error "Only new orders can be rejected"
  else
    Except.ok ({ o with status := OrderStatus.rejected, reject_reason := some reason },
      send_execution_report "8" "8" none none 0 0 o.quantity)

/-- The order row persisted by `FIXServer._handle_new_order`
(fix_server.py lines 252-266): status `new`, nothing filled, everything
remaining, no executions. -/
def mk_new_order (cl_ord_id sender_comp_id symbol : String) (side : OrderSide)
    (order_type : OrderType) (quantity : Int) (limit_price : Option ℚ)
    (time_in_force : TimeInForce) : Order :=
  { cl_ord_id := cl_ord_id
    sender_comp_id := sender_comp_id
    symbol := symbol
    side := side
    order_type := order_type
    quantity := quantity
    limit_price := limit_price
    time_in_force := time_in_force
    status := OrderStatus.new
    filled_quantity := 0
    remaining_quantity := quantity
    reject_reason := none
    executions := [] }

/-- An administrative action on a single order: the three mutating endpoints
of app.py. -/
inductive AdminOp where
  | execute (stock_price : Option ℚ) (req_qty : Option Int)
  | cancel
  | reject (reason : String)

/-- Apply one administrative action; a failed action leaves the row as it was
(every error path of the endpoints returns before mutating). -/
def apply_op (o : Order) (op : AdminOp) : Order :=
  match op with
  | AdminOp.execute sp rq =>
    match execute_order o sp rq with
    | Except.ok (o', _) => o'
    | Except.error _ => o
  | AdminOp.cancel =>
    match cancel_order o with
    | Except.ok (o', _) => o'
    | Except.error _ => o
  | AdminOp.reject reason =>
    match reject_order o reason with
    | Except.ok (o', _) => o'
    | Except.error _ => o

/-- Run a sequence of administrative actions. -/
def run_ops (o : Order) (ops : List AdminOp) : Order :=
  ops.foldl apply_op o

/-! ## FIX server: outbound sequencing (`fix_server.py`)

`FIXServer.__init__` (lines 51-62) creates a single counter
`self.msg_seq_num = 1` on the server object.  Every outbound message is
stamped with the current counter value at construction and `_send_message`
(lines 335-349) increments the counter once per message sent, regardless of
which client socket the message goes to.  (The per-client
`clients[socket]['msg_seq_num']` recorded at logon is never read for
outbound numbering.)  The model keeps the counter plus the log of
`(target session, sequence number)` pairs in send order. -/

structure FIXServerState where
  msg_seq_num : Nat
  sent : List (String × Nat)
deriving DecidableEq, Repr

/-- The server's sequencing state right after `FIXServer.__init__`. -/
def init_server : FIXServerState :=
  { msg_seq_num := 1, sent := [] }

/-- `FIXServer._send_message` restricted to its sequencing effect: the
message carries the current global counter and the counter is incremented
after the send. -/
def send_message (s : FIXServerState) (target : String) : FIXServerState :=
  { msg_seq_num := s.msg_seq_num + 1
    sent := s.sent ++ [(target, s.msg_seq_num)] }

/-- Send a series of messages, each to the named target session. -/
def send_all (s : FIXServerState) (targets : List String) : FIXServerState :=
  targets.foldl send_message s

/-- The sequence numbers observed on one session: the stamped numbers of the
messages sent to that target, in send order. -/
def session_seq_nums (s : FIXServerState) (target : String) : List Nat :=
  (s.sent.filter (fun m => m.1 = target)).map Prod.snd

/-! ## FIX server: order admission (`FIXServer._handle_new_order`)

Lines 217-289.  The handler decodes the wire fields, maps the codes to the
enums (side: `"1"` = buy else sell; order type: `"1"` = market else limit;
time-in-force: table lookup with default `day`, also used when tag 59 is
absent), inserts the order and commits, then sends one ExecutionReport with
`ExecType=0`, `OrdStatus=0`.  The orders table has a UNIQUE constraint on
`cl_ord_id` (models.py line 55), so a duplicate makes the commit raise; the
handler's catch-all (line 288) logs the error, and neither the insert nor
any report survives.  The model takes the store as a list of rows. -/

/-- Side code mapping at fix_server.py line 243. -/
def side_of_code (c : String) : OrderSide :=
  if c = "1" then OrderSide.buy else OrderSide.sell

/-- Order-type code mapping at fix_server.py line 246. -/
def order_type_of_code (c : String) : OrderType :=
  if c = "1" then OrderType.market else OrderType.limit

/-- `tif_map.get(time_in_force, TimeInForce.DAY)` at fix_server.py
lines 249-250. -/
def tif_of_code (c : String) : TimeInForce :=
  if c = "0" then TimeInForce.day
  else if c = "1" then TimeInForce.gtc
  else if c = "3" then TimeInForce.ioc
  else if c = "4" then TimeInForce.fok
  else TimeInForce.day

/-- `FIXServer._handle_new_order`: given the store and the decoded wire
fields, return the new store and the reports sent back on the session.
`time_in_force = none` models an absent tag 59 (defaulted to code `"0"`,
line 236). -/
def handle_new_order (store : List Order) (cl_ord_id sender_comp_id symbol : String)
    (side_code : String) (order_qty : Int) (ord_type_code : String)
    (price : Option ℚ) (tif_code : Option String) :
    List Order × List WireReport :=
  let tif := tif_of_code (tif_code.getD "0")
  let order := mk_new_order cl_ord_id sender_comp_id symbol (side_of_code side_code)
    (order_type_of_code ord_type_code) order_qty price tif
  if store.any (fun o => o.cl_ord_id = cl_ord_id) then
    (store, [])
  else
    (store ++ [order],
     [send_execution_report "0" "0" none none 0 0 order_qty])

end Broker

namespace FixSchemas

/-!
## FIX message schemas (`broker/fix_schemas.py`)

The wire is abstracted as an association list of `(tag, value)` pairs;
`simplefix` frames and checksums faithfully and `msg.get` returns the first
occurrence of a tag, so this is the level at which `to_fix_message` and
`from_fix_message` operate.  Python's `str`/`int` and `str`/`float`
conversions are exact inverses, so integer- and float-valued tags carry their
values directly.  Timestamps are the one lossy leaf: `strftime` with format
`%Y%m%d-%H:%M:%S` keeps only whole seconds, and `strptime` of such a string
yields a datetime with zero microseconds.  A datetime is therefore modelled
as a whole-second count plus a microsecond remainder, and the wire carries
only the seconds.
-/

/-- A Python `datetime`, split into the part the FIX timestamp format keeps
(whole seconds, encoding date+time) and the part it drops (microseconds). -/
structure Dt where
  sec : Nat
  micro : Nat
deriving DecidableEq, Repr

/-- A tag value on the wire, tagged by the Python type it was written from. -/
inductive FVal where
  | str (s : String)
  | int (n : Int)
  | rat (x : ℚ)
  | time (sec : Nat)
deriving DecidableEq, Repr

/-- `msg.get(tag)`: first occurrence. -/
def fget (w : List (Nat × FVal)) (t : Nat) : Option FVal :=
  (w.find? (fun p => p.1 = t)).map (fun p => p.2)

/-- Decode a required string tag (`msg.get(T).decode('utf-8')`; absent tag
raises → parse failure). -/
def get_str : Option FVal → Option String
  | some (FVal.str s) => some s
  | _ => none

/-- Decode a required int tag (`int(msg.get(T).decode('utf-8'))`). -/
def get_int : Option FVal → Option Int
  | some (FVal.int n) => some n
  | _ => none

/-- Decode a required float tag (`float(msg.get(T).decode('utf-8'))`). -/
def get_rat : Option FVal → Option ℚ
  | some (FVal.rat x) => some x
  | _ => none

/-- `msg.get(T).decode('utf-8') if msg.get(T) else dflt`: Python falls back
to the default when the tag is absent or its bytes are empty (falsy). -/
def str_or (w : List (Nat × FVal)) (t : Nat) (dflt : String) : Option String :=
  match fget w t with
  | none => some dflt
  | some (FVal.str s) => some (if s = "" then dflt else s)
  | some _ => none

/-- `datetime.strptime(msg.get(T)...) if msg.get(T) else now`: parsing the
seconds-precision string yields a datetime with zero microseconds. -/
def time_or (w : List (Nat × FVal)) (t : Nat) (now : Dt) : Option Dt :=
  match fget w t with
  | none => some now
  | some (FVal.time s) => some ⟨s, 0⟩
  | some _ => none

/-- `msg.get(T).decode('utf-8') if msg.get(T) else None`: an absent tag (or
empty, falsy bytes) gives `None`. -/
def opt_str (v : Option FVal) : Option (Option String) :=
  match v with
  | none => some none
  | some (FVal.str s) => some (if s = "" then none else some s)
  | some _ => none

/-- `int(msg.get(T).decode('utf-8')) if msg.get(T) else None`. -/
def opt_int (v : Option FVal) : Option (Option Int) :=
  match v with
  | none => some none
  | some (FVal.int n) => some (some n)
  | some _ => none

/-- `float(msg.get(T).decode('utf-8')) if msg.get(T) else None`. -/
def opt_rat (v : Option FVal) : Option (Option ℚ) :=
  match v with
  | none => some none
  | some (FVal.rat x) => some (some x)
  | some _ => none

/-- Python's `str.upper()` (ASCII, as used for tickers). -/
def py_upper (s : String) : String :=
  String.mk (s.data.map Char.toUpper)

/-- Python's `str.strip()`: drop whitespace from both ends. -/
def py_strip (s : String) : String :=
  String.mk (((s.data.dropWhile Char.isWhitespace).reverse.dropWhile
    Char.isWhitespace).reverse)

/-- The `validate_symbol` field validator of `FIXNewOrderSingle`
(fix_schemas.py lines 122-126): `v.upper().strip()`. -/
def normalize_symbol (s : String) : String :=
  py_strip (py_upper s)

/-- `FIXHeader` (fix_schemas.py lines 42-56). -/
structure FIXHeader where
  begin_string : String
  sender_comp_id : String
  target_comp_id : String
  msg_seq_num : Int
  sending_time : Dt
deriving DecidableEq, Repr

/-- The pydantic validation of `FIXHeader`: `begin_string` must be
`"FIX.4.2"`, comp ids non-empty, `msg_seq_num ≥ 1`. -/
def valid_header (h : FIXHeader) : Bool :=
  decide (h.begin_string = "FIX.4.2") &&
  decide (h.sender_comp_id ≠ "") &&
  decide (h.target_comp_id ≠ "") &&
  decide (1 ≤ h.msg_seq_num)

/-- `FIXNewOrderSingle` (fix_schemas.py lines 98-173). -/
structure FIXNewOrderSingle where
  header : FIXHeader
  cl_ord_id : String
  handl_inst : String
  symbol : String
  side : String
  transact_time : Dt
  ord_type : String
  order_qty : Int
  price : Option ℚ
  time_in_force : String
deriving DecidableEq, Repr

/-- The pydantic validation of `FIXNewOrderSingle`: field constraints, the
price-required-for-limit validator, and the fact that any constructed
instance's symbol has already been normalized by `validate_symbol`. -/
def valid_new_order_single (m : FIXNewOrderSingle) : Bool :=
  valid_header m.header &&
  decide (m.cl_ord_id ≠ "") &&
  (decide (m.handl_inst = "1") || decide (m.handl_inst = "2") ||
    decide (m.handl_inst = "3")) &&
  decide (m.symbol ≠ "") &&
  decide (m.symbol.length ≤ 10) &&
  decide (m.symbol = normalize_symbol m.symbol) &&
  (decide (m.side = "1") || decide (m.side = "2")) &&
  (decide (m.ord_type = "1") || decide (m.ord_type = "2") ||
    decide (m.ord_type = "3") || decide (m.ord_type = "4")) &&
  decide (0 < m.order_qty) &&
  (match m.price with
   | some p => decide (0 < p)
   | none => true) &&
  (if m.ord_type = "2" ∨ m.ord_type = "4" then decide (m.price ≠ none) else true) &&
  (decide (m.time_in_force = "0") || decide (m.time_in_force = "1") ||
    decide (m.time_in_force = "3") || decide (m.time_in_force = "4"))

/-- `FIXNewOrderSingle.to_fix_message` (fix_schemas.py lines 154-173).  Tag 44
is appended only when `self.price` is truthy (non-`None` and non-zero). -/
def nos_to_fix_message (m : FIXNewOrderSingle) : List (Nat × FVal) :=
  [(8, FVal.str m.header.begin_string), (35, FVal.str "D"),
   (49, FVal.str m.header.sender_comp_id), (56, FVal.str m.header.target_comp_id),
   (34, FVal.int m.header.msg_seq_num), (52, FVal.time m.header.sending_time.sec),
   (11, FVal.str m.cl_ord_id), (21, FVal.str m.handl_inst),
   (55, FVal.str m.symbol), (54, FVal.str m.side),
   (60, FVal.time m.transact_time.sec), (40, FVal.str m.ord_type)] ++
  (match m.price with
   | some p => if p = 0 then [] else [(44, FVal.rat p)]
   | none => []) ++
  [(38, FVal.int m.order_qty), (59, FVal.str m.time_in_force)]

/-- `FIXNewOrderSingle.from_fix_message` (fix_schemas.py lines 128-152),
followed by the pydantic validation that constructing the model performs.
`now` stands for `datetime.now()`, used when an optional timestamp tag is
absent. -/
def nos_from_fix_message (now : Dt) (w : List (Nat × FVal)) :
    Option FIXNewOrderSingle :=
  match str_or w 8 "FIX.4.2", get_str (fget w 49), get_str (fget w 56),
    get_int (fget w 34), time_or w 52 now, get_str (fget w 11),
    str_or w 21 "1", get_str (fget w 55), get_str (fget w 54),
    time_or w 60 now, get_str (fget w 40), get_int (fget w 38),
    opt_rat (fget w 44), str_or w 59 "0" with
  | some begin_string, some sender, some target, some seq, some sending,
    some cl, some handl, some symbol, some side, some ttime, some ot,
    some qty, some price, some tif =>
    let m : FIXNewOrderSingle :=
      { header := ⟨begin_string, sender, target, seq, sending⟩
        cl_ord_id := cl
        handl_inst := handl
        symbol := normalize_symbol symbol
        side := side
        transact_time := ttime
        ord_type := ot
        order_qty := qty
        price := price
        time_in_force := tif }
    if valid_new_order_single m then some m else none
  | _, _, _, _, _, _, _, _, _, _, _, _, _, _ => none

/-- `FIXExecutionReport` (fix_schemas.py lines 176-271). -/
structure FIXExecutionReport where
  header : FIXHeader
  cl_ord_id : String
  exec_id : String
  exec_type : String
  ord_status : String
  symbol : String
  side : String
  order_qty : Int
  cum_qty : Int
  leaves_qty : Int
  avg_px : ℚ
  ord_type : Option String
  last_qty : Option Int
  last_px : Option ℚ
  orig_cl_ord_id : Option String
deriving DecidableEq, Repr

/-- The pydantic validation of `FIXExecutionReport`: the `Literal` fields,
the numeric field constraints, and the `cum_qty`/`leaves_qty` validators
(lines 196-213). -/
def valid_execution_report (m : FIXExecutionReport) : Bool :=
  valid_header m.header &&
  (decide (m.exec_type = "0") || decide (m.exec_type = "1") ||
    decide (m.exec_type = "2") || decide (m.exec_type = "4") ||
    decide (m.exec_type = "5") || decide (m.exec_type = "8")) &&
  (decide (m.ord_status = "0") || decide (m.ord_status = "1") ||
    decide (m.ord_status = "2") || decide (m.ord_status = "4") ||
    decide (m.ord_status = "8")) &&
  (decide (m.side = "1") || decide (m.side = "2")) &&
  decide (0 < m.order_qty) &&
  decide (0 ≤ m.cum_qty) &&
  decide (m.cum_qty ≤ m.order_qty) &&
  decide (0 ≤ m.leaves_qty) &&
  decide (m.leaves_qty = m.order_qty - m.cum_qty) &&
  decide (0 ≤ m.avg_px) &&
  (match m.ord_type with
   | some s =>
     decide (s = "1") || decide (s = "2") || decide (s = "3") || decide (s = "4")
   | none => true) &&
  (match m.last_qty with
   | some n => decide (0 < n)
   | none => true) &&
  (match m.last_px with
   | some p => decide (0 < p)
   | none => true)

/-- `FIXExecutionReport.to_fix_message` (fix_schemas.py lines 244-271).
Tags 40, 32, 31 and 41 are appended only when the corresponding field is
truthy; `SendingTime` is appended last. -/
def er_to_fix_message (m : FIXExecutionReport) : List (Nat × FVal) :=
  [(8, FVal.str m.header.begin_string), (35, FVal.str "8"),
   (49, FVal.str m.header.sender_comp_id), (56, FVal.str m.header.target_comp_id),
   (34, FVal.int m.header.msg_seq_num),
   (11, FVal.str m.cl_ord_id), (17, FVal.str m.exec_id),
   (150, FVal.str m.exec_type), (39, FVal.str m.ord_status),
   (55, FVal.str m.symbol), (54, FVal.str m.side),
   (38, FVal.int m.order_qty)] ++
  (match m.ord_type with
   | some s => if s = "" then [] else [(40, FVal.str s)]
   | none => []) ++
  (match m.last_qty with
   | some n => if n = 0 then [] else [(32, FVal.int n)]
   | none => []) ++
  (match m.last_px with
   | some p => if p = 0 then [] else [(31, FVal.rat p)]
   | none => []) ++
  [(14, FVal.int m.cum_qty), (6, FVal.rat m.avg_px),
   (151, FVal.int m.leaves_qty)] ++
  (match m.orig_cl_ord_id with
   | some s => if s = "" then [] else [(41, FVal.str s)]
   | none => []) ++
  [(52, FVal.time m.header.sending_time.sec)]

/-- `FIXExecutionReport.from_fix_message` (fix_schemas.py lines 215-242),
followed by the pydantic validation. -/
def er_from_fix_message (now : Dt) (w : List (Nat × FVal)) :
    Option FIXExecutionReport :=
  match str_or w 8 "FIX.4.2", get_str (fget w 49), get_str (fget w 56),
    get_int (fget w 34), time_or w 52 now, get_str (fget w 11),
    get_str (fget w 17), get_str (fget w 150), get_str (fget w 39),
    get_str (fget w 55), get_str (fget w 54), get_int (fget w 38),
    get_int (fget w 14), get_int (fget w 151), get_rat (fget w 6),
    opt_str (fget w 40), opt_int (fget w 32), opt_rat (fget w 31),
    opt_str (fget w 41) with
  | some begin_string, some sender, some target, some seq, some sending,
    some cl, some eid, some et, some os, some symbol, some side, some qty,
    some cum, some leaves, some avg, some ot, some lq, some lp, some orig =>
    let m : FIXExecutionReport :=
      { header := ⟨begin_string, sender, target, seq, sending⟩
        cl_ord_id := cl
        exec_id := eid
        exec_type := et
        ord_status := os
        symbol := symbol
        side := side
        order_qty := qty
        cum_qty := cum
        leaves_qty := leaves
        avg_px := avg
        ord_type := ot
        last_qty := lq
        last_px := lp
        orig_cl_ord_id := orig }
    if valid_execution_report m then some m else none
  | _, _, _, _, _, _, _, _, _, _, _, _, _, _, _, _, _, _, _ => none

end FixSchemas

namespace Broker

/-! ## Lifecycle invariants -/

/-- The inductive invariant of an accepted order: the claimed quantity
conservation and filled-status characterization, strengthened by the two
auxiliary facts that make it inductive (a `new` order has no executions; a
`partially_filled` order has nonzero remaining quantity). -/
def OrderInv (o : Order) : Prop :=
  o.filled_quantity + o.remaining_quantity = o.quantity ∧
  (o.status = OrderStatus.filled ↔ o.remaining_quantity = 0 ∧ o.executions ≠ []) ∧
  (o.status = OrderStatus.new → o.executions = []) ∧
  (o.status = OrderStatus.partially_filled → o.remaining_quantity ≠ 0)

theorem inv_mk_new_order (cl snd sym : String) (side : OrderSide) (ot : OrderType)
    (qty : Int) (price : Option ℚ) (tif : TimeInForce) :
    OrderInv (mk_new_order cl snd sym side ot qty price tif) := by
  refine ⟨by simp [mk_new_order], ?_, by simp [mk_new_order], by simp [mk_new_order]⟩
  simp [mk_new_order]

theorem inv_apply_fill {o : Order} (h : OrderInv o) (q : Int) (p : ℚ) :
    OrderInv (apply_fill o q p) := by
  obtain ⟨h1, _h2, _h3, _h4⟩ := h
  unfold apply_fill
  by_cases hz : o.remaining_quantity - q = 0 <;>
    simp [hz, OrderInv] <;> omega

theorem execute_order_ok_shape {o : Order} {sp : Option ℚ} {rq : Option Int}
    {o' : Order} {r : WireReport}
    (h : execute_order o sp rq = Except.ok (o', r)) :
    ∃ q p, o' = apply_fill o q p := by
  unfold execute_order at h
  split at h
  · exact absurd h (by simp)
  · split at h
    · exact absurd h (by simp)
    · split at h
      · exact absurd h (by simp)
      · split at h
        · exact absurd h (by simp)
        · injection h with h'
          exact ⟨_, _, (congrArg Prod.fst h').symm⟩

theorem cancel_order_ok_shape {o : Order} {o' : Order} {r : WireReport}
    (h : cancel_order o = Except.ok (o', r)) :
    o' = { o with status := OrderStatus.canceled } ∧
    (o.status = OrderStatus.new ∨ o.status = OrderStatus.partially_filled) := by
  unfold cancel_order at h
  split at h
  · exact absurd h (by simp)
  · rename_i hst
    rw [not_not] at hst
    injection h with h'
    exact ⟨congrArg Prod.fst h'.symm, hst⟩

theorem reject_order_ok_shape {o : Order} {reason : String} {o' : Order}
    {r : WireReport} (h : reject_order o reason = Except.ok (o', r)) :
    o' = { o with status := OrderStatus.rejected, reject_reason := some reason } ∧
    o.status = OrderStatus.new := by
  unfold reject_order at h
  split at h
  · exact absurd h (by simp)
  · rename_i hst
    rw [not_not] at hst
    injection h with h'
    exact ⟨congrArg Prod.fst h'.symm, hst⟩

theorem inv_apply_op {o : Order} (h : OrderInv o) (op : AdminOp) :
    OrderInv (apply_op o op) := by
  obtain ⟨h1, h2, h3, h4⟩ := h
  cases op with
  | execute sp rq =>
    simp only [apply_op]
    cases hE : execute_order o sp rq with
    | error e => exact ⟨h1, h2, h3, h4⟩
    | ok res =>
      obtain ⟨o2, r2⟩ := res
      obtain ⟨q, p, hq⟩ := execute_order_ok_shape hE
      rw [show (match Except.ok (o2, r2) with
            | (Except.ok (o', _) : Except String (Order × WireReport)) => o'
            | Except.error _ => o) = o2 from rfl, hq]
      exact inv_apply_fill ⟨h1, h2, h3, h4⟩ q p
  | cancel =>
    simp only [apply_op]
    cases hC : cancel_order o with
    | error e => exact ⟨h1, h2, h3, h4⟩
    | ok res =>
      obtain ⟨o2, r2⟩ := res
      obtain ⟨hr, hst⟩ := cancel_order_ok_shape hC
      rw [show (match Except.ok (o2, r2) with
            | (Except.ok (o', _) : Except String (Order × WireReport)) => o'
            | Except.error _ => o) = o2 from rfl, hr]
      refine ⟨h1, ?_, ?_, ?_⟩
      · constructor
        · intro hc
          cases hc
        · rintro ⟨hr0, he⟩
          rcases hst with hnew | hpf
          · exact absurd (h3 hnew) he
          · exact absurd hr0 (h4 hpf)
      · intro hc
        cases hc
      · intro hc
        cases hc
  | reject reason =>
    simp only [apply_op]
    cases hR : reject_order o reason with
    | error e => exact ⟨h1, h2, h3, h4⟩
    | ok res =>
      obtain ⟨o2, r2⟩ := res
      obtain ⟨hr, hst⟩ := reject_order_ok_shape hR
      rw [show (match Except.ok (o2, r2) with
            | (Except.ok (o', _) : Except String (Order × WireReport)) => o'
            | Except.error _ => o) = o2 from rfl, hr]
      refine ⟨h1, ?_, ?_, ?_⟩
      · constructor
        · intro hc
          cases hc
        · rintro ⟨_, he⟩
          exact absurd (h3 hst) he
      · intro hc
        cases hc
      · intro hc
        cases hc

theorem inv_run_ops {o : Order} (h : OrderInv o) (ops : List AdminOp) :
    OrderInv (run_ops o ops) := by
  induction ops generalizing o with
  | nil => exact h
  | cons op ops ih => exact ih (inv_apply_op h op)

/-- C6: For every accepted order at every commit point, `filled_quantity +
remaining_quantity = quantity`, and `status = filled` holds iff
`remaining_quantity = 0` and the order has at least one execution; the
submission state has `filled_quantity = 0`, `remaining_quantity = quantity`
and `status = new`, and the invariant is preserved by every administrative
action (fills included). -/
theorem submitted_order_invariant (cl snd sym : String) (side : OrderSide)
    (ot : OrderType) (qty : Int) (price : Option ℚ) (tif : TimeInForce)
    (ops : List AdminOp) :
    (mk_new_order cl snd sym side ot qty price tif).filled_quantity = 0 ∧
    (mk_new_order cl snd sym side ot qty price tif).remaining_quantity = qty ∧
    (mk_new_order cl snd sym side ot qty price tif).status = OrderStatus.new ∧
    ((run_ops (mk_new_order cl snd sym side ot qty price tif) ops).filled_quantity +
      (run_ops (mk_new_order cl snd sym side ot qty price tif) ops).remaining_quantity =
      (run_ops (mk_new_order cl snd sym side ot qty price tif) ops).quantity) ∧
    ((run_ops (mk_new_order cl snd sym side ot qty price tif) ops).status =
        OrderStatus.filled ↔
      (run_ops (mk_new_order cl snd sym side ot qty price tif) ops).remaining_quantity = 0 ∧
      (run_ops (mk_new_order cl snd sym side ot qty price tif) ops).executions ≠ []) := by
  have h := inv_run_ops (inv_mk_new_order cl snd sym side ot qty price tif) ops
  exact ⟨rfl, rfl, rfl, h.1, h.2.1⟩

/-! ## Fills: FOK and limit admissibility -/

/-- The reports the execute endpoint sends for one call: one per successful
execution, none on an error (app.py lines 241-255 run only after a successful
commit). -/
def execute_order_reports (o : Order) (stock_price : Option ℚ)
    (req_qty : Option Int) : List WireReport :=
  match execute_order o stock_price req_qty with
  | Except.ok (_, r) => [r]
  | Except.error _ => []

/-- C4: a fill request with an explicit quantity whose clamped value differs
from the remaining quantity fails on a FOK order with the
FOK-not-fully-fillable error, and the failed call leaves the order (status,
quantities and executions) unchanged and persists nothing. -/
theorem fok_partial_fill_rejected (o : Order) (q : Int) (p : ℚ)
    (htif : o.time_in_force = TimeInForce.fok)
    (hst : o.status = OrderStatus.new ∨ o.status = OrderStatus.partially_filled)
    (hpx : limit_check o p = none)
    (hq : min q o.remaining_quantity ≠ o.remaining_quantity) :
    execute_order o (some p) (some q) =
      Except.error "FOK order must be filled completely" ∧
    apply_op o (AdminOp.execute (some p) (some q)) = o ∧
    execute_order_reports o (some p) (some q) = [] := by
  have hE : execute_order o (some p) (some q) =
      Except.error "FOK order must be filled completely" := by
    unfold execute_order
    rw [if_neg (not_not_intro hst)]
    show (match limit_check o p with
      | some msg => Except.error msg
      | none => _) = _
    rw [hpx]
    exact if_pos ⟨htif, hq⟩
  exact ⟨hE, by simp [apply_op, hE], by simp [execute_order_reports, hE]⟩

/-- Witness for `fok_partial_fill_rejected`: a FOK market order for 100 with
a fill request of 50 is refused and unchanged. -/
theorem fok_partial_fill_rejected_witness :
    execute_order (mk_new_order "O5" "CLIENT1" "AAPL" OrderSide.buy
        OrderType.market 100 none TimeInForce.fok) (some 150) (some 50) =
      Except.error "FOK order must be filled completely" ∧
    apply_op (mk_new_order "O5" "CLIENT1" "AAPL" OrderSide.buy
        OrderType.market 100 none TimeInForce.fok)
      (AdminOp.execute (some 150) (some 50)) =
      mk_new_order "O5" "CLIENT1" "AAPL" OrderSide.buy
        OrderType.market 100 none TimeInForce.fok ∧
    execute_order_reports (mk_new_order "O5" "CLIENT1" "AAPL" OrderSide.buy
        OrderType.market 100 none TimeInForce.fok) (some 150) (some 50) = [] :=
  fok_partial_fill_rejected _ 50 150 rfl (Or.inl rfl) rfl (by decide)

/-- C5: for a limit order in an executable state (and not refused by the FOK
gate), a fill at reference price `p` is admitted iff the buy limit is at or
above `p`, respectively the sell limit at or below `p`; otherwise the call
returns an error and the order is unchanged with nothing appended. -/
theorem limit_fill_admissibility (o : Order) (p lp : ℚ) (rq : Option Int)
    (hty : o.order_type = OrderType.limit)
    (hlp : o.limit_price = some lp)
    (hst : o.status = OrderStatus.new ∨ o.status = OrderStatus.partially_filled)
    (hfok : o.time_in_force = TimeInForce.fok →
      eff_qty o rq = o.remaining_quantity) :
    ((∃ res, execute_order o (some p) rq = Except.ok res) ↔
      ((o.side = OrderSide.buy ∧ p ≤ lp) ∨ (o.side = OrderSide.sell ∧ lp ≤ p))) ∧
    (¬((o.side = OrderSide.buy ∧ p ≤ lp) ∨ (o.side = OrderSide.sell ∧ lp ≤ p)) →
      ∃ msg, execute_order o (some p) rq = Except.error msg ∧
        apply_op o (AdminOp.execute (some p) rq) = o ∧
        execute_order_reports o (some p) rq = []) := by
  have hst' : ¬¬(o.status = OrderStatus.new ∨
      o.status = OrderStatus.partially_filled) := not_not_intro hst
  have hfok' : ¬(o.time_in_force = TimeInForce.fok ∧
      eff_qty o rq ≠ o.remaining_quantity) := fun hx => hx.2 (hfok hx.1)
  cases hs : o.side with
  | buy =>
    by_cases hcmp : lp < p
    · have hE : execute_order o (some p) rq =
          Except.error "Buy limit price too low" := by
        simp [execute_order, limit_check, hty, hlp, hs, hcmp, hst', hfok']
      constructor
      · rw [hE]
        simp [hs, not_le_of_lt hcmp]
      · intro _
        exact ⟨_, hE, by simp [apply_op, hE], by simp [execute_order_reports, hE]⟩
    · have hE : execute_order o (some p) rq =
          Except.ok (fill_result o (eff_qty o rq) p) := by
        simp [execute_order, limit_check, hty, hlp, hs, hcmp, hst', hfok']
      constructor
      · rw [hE]
        simp [hs, le_of_not_lt hcmp]
      · intro hcond
        exact absurd (Or.inl ⟨rfl, le_of_not_lt hcmp⟩) hcond
  | sell =>
    by_cases hcmp : p < lp
    · have hE : execute_order o (some p) rq =
          Except.error "Sell limit price too high" := by
        simp [execute_order, limit_check, hty, hlp, hs, hcmp, hst', hfok']
      constructor
      · rw [hE]
        simp [hs, not_le_of_lt hcmp]
      · intro _
        exact ⟨_, hE, by simp [apply_op, hE], by simp [execute_order_reports, hE]⟩
    · have hE : execute_order o (some p) rq =
          Except.ok (fill_result o (eff_qty o rq) p) := by
        simp [execute_order, limit_check, hty, hlp, hs, hcmp, hst', hfok']
      constructor
      · rw [hE]
        simp [hs, le_of_not_lt hcmp]
      · intro hcond
        exact absurd (Or.inr ⟨rfl, le_of_not_lt hcmp⟩) hcond

/-- Witness for `limit_fill_admissibility`: a buy limit at 155 against a
reference price of 150 is admitted; one at 140 is not. -/
theorem limit_fill_admissibility_witness :
    ((∃ res, execute_order (mk_new_order "O2" "CLIENT1" "AAPL" OrderSide.buy
        OrderType.limit 50 (some 155) TimeInForce.day) (some 150) none =
        Except.ok res) ↔
      ((OrderSide.buy = OrderSide.buy ∧ (150 : ℚ) ≤ 155) ∨
       (OrderSide.buy = OrderSide.sell ∧ (155 : ℚ) ≤ 150))) ∧
    ((∃ res, execute_order (mk_new_order "O2b" "CLIENT1" "AAPL" OrderSide.buy
        OrderType.limit 50 (some 140) TimeInForce.day) (some 150) none =
        Except.ok res) ↔
      ((OrderSide.buy = OrderSide.buy ∧ (150 : ℚ) ≤ 140) ∨
       (OrderSide.buy = OrderSide.sell ∧ (140 : ℚ) ≤ 150))) :=
  ⟨(limit_fill_admissibility _ 150 155 none rfl rfl (Or.inl rfl)
      (fun h => by cases h)).1,
   (limit_fill_admissibility _ 150 140 none rfl rfl (Or.inl rfl)
      (fun h => by cases h)).1⟩

/-! ## IOC: what the code actually does with a residual -/

/-- C1 (code observation): executing 40 of an IOC market order for 100 at
reference price 140 leaves the order `partially_filled` with
`filled_quantity = 40` and `remaining_quantity = 60` — it is NOT transitioned
to `canceled` — and the endpoint emits exactly one report, a partial fill
(`ExecType="1"`), not a fill report followed by a cancel report.  The IOC
branch of `execute_order` (app.py lines 209-211) is a no-op `pass` despite
its own comment "execute what we can, cancel the rest". -/
theorem ioc_residual_not_canceled :
    (apply_op (mk_new_order "O4" "CLIENT1" "GOOGL" OrderSide.buy
        OrderType.market 100 none TimeInForce.ioc)
      (AdminOp.execute (some 140) (some 40))).status =
      OrderStatus.partially_filled ∧
    (apply_op (mk_new_order "O4" "CLIENT1" "GOOGL" OrderSide.buy
        OrderType.market 100 none TimeInForce.ioc)
      (AdminOp.execute (some 140) (some 40))).status ≠ OrderStatus.canceled ∧
    (apply_op (mk_new_order "O4" "CLIENT1" "GOOGL" OrderSide.buy
        OrderType.market 100 none TimeInForce.ioc)
      (AdminOp.execute (some 140) (some 40))).filled_quantity = 40 ∧
    (apply_op (mk_new_order "O4" "CLIENT1" "GOOGL" OrderSide.buy
        OrderType.market 100 none TimeInForce.ioc)
      (AdminOp.execute (some 140) (some 40))).remaining_quantity = 60 ∧
    (execute_order_reports (mk_new_order "O4" "CLIENT1" "GOOGL" OrderSide.buy
        OrderType.market 100 none TimeInForce.ioc) (some 140)
      (some 40)).map WireReport.exec_type = ["1"] :=
  ⟨rfl, by decide, rfl, rfl, rfl⟩

/-! ## Cancelation -/

/-- C8 (counterexample): cancel a day order for 100 that was first filled
40 @ 10.  The cancel report carries `AvgPx = 0` (the literal at app.py
line 295) although the average over its fills — the value the claim
prescribes — is 10. -/
theorem cancel_report_avgpx_counterexample :
    ((cancel_order (apply_op (mk_new_order "O8" "CLIENT1" "ACME" OrderSide.buy
        OrderType.market 100 none TimeInForce.day)
      (AdminOp.execute (some 10) (some 40)))).toOption.map
        (fun x => x.2.avg_px) = some 0) ∧
    avg_px_of (apply_op (mk_new_order "O8" "CLIENT1" "ACME" OrderSide.buy
        OrderType.market 100 none TimeInForce.day)
      (AdminOp.execute (some 10) (some 40))).executions
      (apply_op (mk_new_order "O8" "CLIENT1" "ACME" OrderSide.buy
        OrderType.market 100 none TimeInForce.day)
      (AdminOp.execute (some 10) (some 40))).filled_quantity = 10 ∧
    (0 : ℚ) ≠ 10 := by
  refine ⟨rfl, ?_, by norm_num⟩
  show avg_px_of [⟨40, 10⟩] 40 = 10
  norm_num [avg_px_of]

/-- C8 (amended): canceling an order in `new` or `partially_filled` (whose
quantities satisfy the conservation invariant) transitions it to `canceled`
with quantities and executions untouched, and emits one report with
`ExecType=4`, `OrdStatus=4`, `CumQty` = the filled quantity, `LeavesQty` =
the pre-cancel remaining quantity — and `AvgPx = 0` regardless of the
order's fills. -/
theorem cancel_order_report (o : Order)
    (hst : o.status = OrderStatus.new ∨ o.status = OrderStatus.partially_filled)
    (hinv : o.filled_quantity + o.remaining_quantity = o.quantity) :
    cancel_order o =
      Except.ok ({ o with status := OrderStatus.canceled },
        { exec_type := "4", ord_status := "4", last_qty := none, last_px := none,
          cum_qty := o.filled_quantity, avg_px := 0, order_qty := o.quantity,
          leaves_qty := o.remaining_quantity }) := by
  unfold cancel_order
  rw [if_neg (not_not_intro hst)]
  have : o.quantity - o.filled_quantity = o.remaining_quantity := by omega
  simp [send_execution_report, this]

/-- Witness for `cancel_order_report`: cancel of a partially filled order
(filled 40 of 100). -/
theorem cancel_order_report_witness :
    cancel_order (apply_op (mk_new_order "O9" "CLIENT1" "ACME" OrderSide.buy
        OrderType.market 100 none TimeInForce.day)
      (AdminOp.execute (some 10) (some 40))) =
      Except.ok ({ apply_op (mk_new_order "O9" "CLIENT1" "ACME" OrderSide.buy
          OrderType.market 100 none TimeInForce.day)
        (AdminOp.execute (some 10) (some 40)) with
          status := OrderStatus.canceled },
        { exec_type := "4", ord_status := "4", last_qty := none, last_px := none,
          cum_qty := 40, avg_px := 0, order_qty := 100, leaves_qty := 60 }) :=
  cancel_order_report _ (Or.inr rfl) rfl

/-! ## Outbound sequence numbers -/

theorem send_all_sent (ts : List String) (s : FIXServerState) :
    (send_all s ts).sent =
      s.sent ++ ts.zip (List.range' s.msg_seq_num ts.length) := by
  induction ts generalizing s with
  | nil => simp [send_all]
  | cons t ts ih =>
    show (send_all (send_message s t) ts).sent = _
    rw [ih]
    simp [send_message, List.range'_succ]

/-- C2 (counterexample): after the server (fresh from `__init__`) sends one
message on session "A" and then one on session "B", the first and only
message on session "B" carries sequence number 2, not 1: the counter is not
per-session. -/
theorem outbound_seq_not_per_session :
    session_seq_nums (send_all init_server ["A", "B"]) "B" = [2] ∧
    session_seq_nums (send_all init_server ["A", "B"]) "B" ≠ [1] := by
  constructor <;> decide

/-- C2 (amended): the outbound counter is a single server-global counter
starting at 1 and incremented once per sent message on any session, so the
k-th message sent overall (whatever its session) carries sequence number k;
within each single session the observed numbers are therefore strictly
increasing, but they are advanced by traffic on other sessions rather than
being per-session. -/
theorem outbound_seq_nums_global (targets : List String) :
    (send_all init_server targets).sent.map Prod.snd =
      List.range' 1 targets.length ∧
    ∀ t, List.Pairwise (· < ·)
      (session_seq_nums (send_all init_server targets) t) := by
  have hsent : (send_all init_server targets).sent =
      targets.zip (List.range' 1 targets.length) := by
    rw [send_all_sent]
    rfl
  have hmap : (send_all init_server targets).sent.map Prod.snd =
      List.range' 1 targets.length := by
    rw [hsent]
    exact List.map_snd_zip _ _ (by simp)
  refine ⟨hmap, fun t => ?_⟩
  have hsub : (session_seq_nums (send_all init_server targets) t).Sublist
      ((send_all init_server targets).sent.map Prod.snd) :=
    List.Sublist.map Prod.snd (List.filter_sublist _)
  rw [hmap] at hsub
  exact List.Pairwise.sublist hsub (List.pairwise_lt_range' 1 targets.length)

/-! ## Order admission over FIX -/

theorem handle_new_order_fresh (store : List Order) (cl snd sym sd ot : String)
    (q : Int) (px : Option ℚ) (tif : Option String)
    (hfresh : store.any (fun o => o.cl_ord_id = cl) = false) :
    handle_new_order store cl snd sym sd q ot px tif =
      (store ++ [mk_new_order cl snd sym (side_of_code sd) (order_type_of_code ot)
        q px (tif_of_code (tif.getD "0"))],
       [send_execution_report "0" "0" none none 0 0 q]) := by
  simp [handle_new_order, hfresh]

theorem handle_new_order_dup (store : List Order) (cl snd sym sd ot : String)
    (q : Int) (px : Option ℚ) (tif : Option String)
    (hdup : store.any (fun o => o.cl_ord_id = cl) = true) :
    handle_new_order store cl snd sym sd q ot px tif = (store, []) := by
  simp [handle_new_order, hdup]

/-- C3 (counterexample): submitting `ClOrdID="DUP"` twice (empty store): the
first is persisted and acknowledged, but the second submission emits NO
report at all — in particular no `ExecType=8` rejection mentioning the
duplicate — because the UNIQUE-constraint failure is swallowed by the
handler's catch-all logger. -/
theorem duplicate_clordid_counterexample :
    (handle_new_order
      (handle_new_order [] "DUP" "CLIENT1" "AAPL" "1" 100 "1" none none).1
      "DUP" "CLIENT2" "MSFT" "2" 50 "1" none none).2 = [] ∧
    ((handle_new_order
      (handle_new_order [] "DUP" "CLIENT1" "AAPL" "1" 100 "1" none none).1
      "DUP" "CLIENT2" "MSFT" "2" 50 "1" none none).1.filter
        (fun o => o.cl_ord_id = "DUP")).length = 1 := by
  constructor <;> decide

/-- C3 (amended): of two NewOrderSingle submissions carrying the same
`cl_ord_id`, the first is persisted (exactly one order with that id exists
afterwards) and acknowledged with an `ExecType=0` report, while the second is
not persisted — its database insert violates the UNIQUE constraint — and the
second submitter receives no execution report at all (the failure is only
logged), rather than an `ExecType=8` rejection. -/
theorem duplicate_clordid_one_accepted (store : List Order) (cl : String)
    (s1 sym1 sd1 ot1 : String) (q1 : Int) (px1 : Option ℚ) (tif1 : Option String)
    (s2 sym2 sd2 ot2 : String) (q2 : Int) (px2 : Option ℚ) (tif2 : Option String)
    (hfresh : store.any (fun o => o.cl_ord_id = cl) = false) :
    ((handle_new_order store cl s1 sym1 sd1 q1 ot1 px1 tif1).2.map
      WireReport.exec_type = ["0"]) ∧
    (((handle_new_order store cl s1 sym1 sd1 q1 ot1 px1 tif1).1.filter
      (fun o => o.cl_ord_id = cl)).length = 1) ∧
    handle_new_order (handle_new_order store cl s1 sym1 sd1 q1 ot1 px1 tif1).1
        cl s2 sym2 sd2 q2 ot2 px2 tif2 =
      ((handle_new_order store cl s1 sym1 sd1 q1 ot1 px1 tif1).1, []) := by
  rw [handle_new_order_fresh store cl s1 sym1 sd1 ot1 q1 px1 tif1 hfresh]
  have hnil : store.filter (fun o => o.cl_ord_id = cl) = [] := by
    rw [List.filter_eq_nil_iff]
    intro o ho
    have := List.any_eq_false.mp hfresh o ho
    simpa using this
  refine ⟨rfl, ?_, ?_⟩
  · simp [List.filter_append, hnil, mk_new_order]
  · apply handle_new_order_dup
    simp [List.any_append, mk_new_order]

/-- Witness for `duplicate_clordid_one_accepted` on an empty store. -/
theorem duplicate_clordid_one_accepted_witness :
    ((handle_new_order [] "DUP2" "CLIENT1" "AAPL" "1" 100 "1" none none).2.map
      WireReport.exec_type = ["0"]) ∧
    (((handle_new_order [] "DUP2" "CLIENT1" "AAPL" "1" 100 "1" none none).1.filter
      (fun o => o.cl_ord_id = "DUP2")).length = 1) ∧
    handle_new_order
        (handle_new_order [] "DUP2" "CLIENT1" "AAPL" "1" 100 "1" none none).1
        "DUP2" "CLIENT2" "MSFT" "2" 50 "1" none none =
      ((handle_new_order [] "DUP2" "CLIENT1" "AAPL" "1" 100 "1" none none).1, []) :=
  duplicate_clordid_one_accepted [] "DUP2" "CLIENT1" "AAPL" "1" "1" 100 none none
    "CLIENT2" "MSFT" "2" "1" 50 none none rfl

/-- C7 (counterexample): a NewOrderSingle with `OrdType="3"` (stop) is
persisted — as a LIMIT order — and acknowledged with an `ExecType=0` report;
no `ExecType=8` rejection for an unsupported order type is produced. -/
theorem stop_ordtype_counterexample :
    ((handle_new_order [] "OST" "CLIENT1" "AAPL" "1" 100 "3" (some 150) none).1.map
      (fun o => o.order_type) = [OrderType.limit]) ∧
    ((handle_new_order [] "OST" "CLIENT1" "AAPL" "1" 100 "3" (some 150) none).2.map
      WireReport.exec_type = ["0"]) ∧
    ("0" : String) ≠ "8" := by
  refine ⟨rfl, rfl, by decide⟩

/-- C7 (amended): a NewOrderSingle whose OrdType wire code is `"3"` (stop) or
`"4"` (stop-limit) is NOT rejected: the mapping at fix_server.py line 246
turns every code other than `"1"` into `limit`, so the order is accepted into
the lifecycle as a limit order and acknowledged with an `ExecType=0`
report. -/
theorem stop_ordtype_accepted_as_limit (store : List Order) (cl snd sym sd : String)
    (q : Int) (otc : String) (px : Option ℚ) (tif : Option String)
    (hot : otc = "3" ∨ otc = "4")
    (hfresh : store.any (fun o => o.cl_ord_id = cl) = false) :
    handle_new_order store cl snd sym sd q otc px tif =
      (store ++ [mk_new_order cl snd sym (side_of_code sd) OrderType.limit q px
        (tif_of_code (tif.getD "0"))],
       [send_execution_report "0" "0" none none 0 0 q]) := by
  have hlim : order_type_of_code otc = OrderType.limit := by
    rcases hot with h | h <;> simp [order_type_of_code, h]
  rw [handle_new_order_fresh store cl snd sym sd otc q px tif hfresh, hlim]

/-- Witness for `stop_ordtype_accepted_as_limit`. -/
theorem stop_ordtype_accepted_as_limit_witness :
    handle_new_order [] "OST2" "CLIENT1" "AAPL" "1" 100 "4" (some 150) none =
      ([mk_new_order "OST2" "CLIENT1" "AAPL" (side_of_code "1") OrderType.limit
        100 (some 150) (tif_of_code "0")],
       [send_execution_report "0" "0" none none 0 0 100]) := by
  have h := stop_ordtype_accepted_as_limit [] "OST2" "CLIENT1" "AAPL" "1" 100 "4"
    (some 150) none (Or.inr rfl) rfl
  simpa using h

/-- C10: a NewOrderSingle whose TimeInForce tag carries an unrecognized wire
code (outside `{"0","1","3","4"}`) is accepted and persisted with
`time_in_force = day` — exactly what an absent tag yields — and acknowledged
with an `ExecType=0` report; no rejection is produced. -/
theorem unknown_tif_defaults_to_day (store : List Order) (cl snd sym sd : String)
    (q : Int) (otc : String) (px : Option ℚ) (tifc : String)
    (hfresh : store.any (fun o => o.cl_ord_id = cl) = false)
    (h0 : tifc ≠ "0") (h1 : tifc ≠ "1") (h3 : tifc ≠ "3") (h4 : tifc ≠ "4") :
    handle_new_order store cl snd sym sd q otc px (some tifc) =
      (store ++ [mk_new_order cl snd sym (side_of_code sd) (order_type_of_code otc)
        q px TimeInForce.day],
       [send_execution_report "0" "0" none none 0 0 q]) ∧
    handle_new_order store cl snd sym sd q otc px (some tifc) =
      handle_new_order store cl snd sym sd q otc px none := by
  have hd : tif_of_code tifc = TimeInForce.day := by
    simp [tif_of_code, h0, h1, h3, h4]
  constructor
  · rw [handle_new_order_fresh store cl snd sym sd otc q px (some tifc) hfresh]
    simp [hd]
  · rw [handle_new_order_fresh store cl snd sym sd otc q px (some tifc) hfresh,
      handle_new_order_fresh store cl snd sym sd otc q px none hfresh]
    have hd0 : tif_of_code "0" = TimeInForce.day := rfl
    simp [hd, hd0]

/-- Witness for `unknown_tif_defaults_to_day`: wire code `"7"`. -/
theorem unknown_tif_defaults_to_day_witness :
    handle_new_order [] "OTIF" "CLIENT1" "AAPL" "1" 100 "1" none (some "7") =
      ([mk_new_order "OTIF" "CLIENT1" "AAPL" (side_of_code "1")
        (order_type_of_code "1") 100 none TimeInForce.day],
       [send_execution_report "0" "0" none none 0 0 100]) ∧
    handle_new_order [] "OTIF" "CLIENT1" "AAPL" "1" 100 "1" none (some "7") =
      handle_new_order [] "OTIF" "CLIENT1" "AAPL" "1" 100 "1" none none := by
  have h := unknown_tif_defaults_to_day [] "OTIF" "CLIENT1" "AAPL" "1" 100 "1"
    none "7" rfl (by decide) (by decide) (by decide) (by decide)
  simpa using h

end Broker

namespace FixSchemas

/-! ## Round-trip of the FIX schemas -/

/-- A valid NewOrderSingle whose `SendingTime` carries a sub-second
remainder (microseconds = 1): every field satisfies the pydantic
constraints. -/
def nos_micro_sample : FIXNewOrderSingle :=
  { header := ⟨"FIX.4.2", "CLIENT1", "BROKER", 1, ⟨1700000000, 1⟩⟩
    cl_ord_id := "O1"
    handl_inst := "1"
    symbol := "AAPL"
    side := "1"
    transact_time := ⟨1700000000, 0⟩
    ord_type := "1"
    order_qty := 100
    price := none
    time_in_force := "0" }

/-- A valid NewOrderSingle with whole-second timestamps. -/
def nos_whole_sample : FIXNewOrderSingle :=
  { header := ⟨"FIX.4.2", "CLIENT1", "BROKER", 1, ⟨1700000050, 0⟩⟩
    cl_ord_id := "O2"
    handl_inst := "1"
    symbol := "AAPL"
    side := "1"
    transact_time := ⟨1700000051, 0⟩
    ord_type := "2"
    order_qty := 100
    price := some 150
    time_in_force := "1" }

/-- A valid ExecutionReport with a whole-second timestamp. -/
def er_whole_sample : FIXExecutionReport :=
  { header := ⟨"FIX.4.2", "BROKER", "CLIENT1", 2, ⟨1700000100, 0⟩⟩
    cl_ord_id := "O2"
    exec_id := "E1"
    exec_type := "0"
    ord_status := "0"
    symbol := "AAPL"
    side := "1"
    order_qty := 100
    cum_qty := 0
    leaves_qty := 100
    avg_px := 0
    ord_type := some "2"
    last_qty := none
    last_px := none
    orig_cl_ord_id := none }

/-- C9 (counterexample): `nos_micro_sample` is a valid NewOrderSingle, yet
encoding it with `to_fix_message` and parsing the result back with
`from_fix_message` does not return it: `strftime` with format
`%Y%m%d-%H:%M:%S` keeps only whole seconds, so the reparsed `SendingTime` has
lost the sub-second part and the round-tripped value differs from the
original. -/
theorem fix_roundtrip_counterexample :
    valid_new_order_single nos_micro_sample = true ∧
    nos_from_fix_message ⟨0, 0⟩ (nos_to_fix_message nos_micro_sample) ≠
      some nos_micro_sample ∧
    nos_from_fix_message ⟨0, 0⟩ (nos_to_fix_message nos_micro_sample) =
      some { nos_micro_sample with
        header := { nos_micro_sample.header with
          sending_time := ⟨1700000000, 0⟩ } } := by
  refine ⟨by decide, by decide, by decide⟩

theorem nos_roundtrip_whole_seconds (now : Dt) (m : FIXNewOrderSingle)
    (hv : valid_new_order_single m = true)
    (hs : m.header.sending_time.micro = 0)
    (ht : m.transact_time.micro = 0) :
    nos_from_fix_message now (nos_to_fix_message m) = some m := by
  have hv0 := hv
  obtain ⟨⟨beg, sndr, tgt, seq, ⟨ssec, smic⟩⟩, cl, hi, sym, sd, ⟨tsec, tmic⟩,
    ot, qty, pr, tf⟩ := m
  dsimp only at hv hv0 hs ht ⊢
  subst hs ht
  simp only [valid_new_order_single, valid_header, Bool.and_eq_true,
    Bool.or_eq_true, decide_eq_true_eq] at hv
  obtain ⟨hv, htf⟩ := hv
  obtain ⟨hv, hpreq⟩ := hv
  obtain ⟨hv, hpx⟩ := hv
  obtain ⟨hv, hqty⟩ := hv
  obtain ⟨hv, hot⟩ := hv
  obtain ⟨hv, hside⟩ := hv
  obtain ⟨hv, hsnorm⟩ := hv
  obtain ⟨hv, hslen⟩ := hv
  obtain ⟨hv, hsne⟩ := hv
  obtain ⟨hv, hhi⟩ := hv
  obtain ⟨hvh, hcl⟩ := hv
  obtain ⟨hvh, hseq⟩ := hvh
  obtain ⟨hvh, htgt⟩ := hvh
  obtain ⟨hbeg, hsndr⟩ := hvh
  have hbne : beg ≠ "" := by rw [hbeg]; decide
  have hhine : hi ≠ "" := by rcases hhi with (h | h) | h <;> simp [h]
  have htfne : tf ≠ "" := by rcases htf with ((h | h) | h) | h <;> simp [h]
  rcases pr with _ | p
  · simp [nos_to_fix_message, nos_from_fix_message, fget, List.find?, str_or,
      time_or, opt_rat, get_str, get_int, hbne, hhine, htfne, hsnorm.symm, hv0]
  · have hpne : p ≠ 0 := by
      intro h
      rw [h] at hpx
      exact absurd hpx (by norm_num)
    simp [nos_to_fix_message, nos_from_fix_message, fget, List.find?, str_or,
      time_or, opt_rat, get_str, get_int, hbne, hhine, htfne, hpne,
      hsnorm.symm, hv0]

set_option maxHeartbeats 3200000 in
theorem er_roundtrip_whole_seconds (now : Dt) (m : FIXExecutionReport)
    (hv : valid_execution_report m = true)
    (hs : m.header.sending_time.micro = 0)
    (horig : m.orig_cl_ord_id ≠ some "") :
    er_from_fix_message now (er_to_fix_message m) = some m := by
  have hv0 := hv
  obtain ⟨⟨beg, sndr, tgt, seq, ⟨ssec, smic⟩⟩, cl, eid, et, os, sym, sd, qty,
    cum, leaves, avg, ot, lq, lp, orig⟩ := m
  dsimp only at hv hv0 hs horig ⊢
  subst hs
  simp only [valid_execution_report, valid_header, Bool.and_eq_true,
    Bool.or_eq_true, decide_eq_true_eq] at hv
  obtain ⟨hv, hlp⟩ := hv
  obtain ⟨hv, hlq⟩ := hv
  obtain ⟨hv, hot⟩ := hv
  obtain ⟨hv, havg⟩ := hv
  obtain ⟨hv, hleq⟩ := hv
  obtain ⟨hv, hlge⟩ := hv
  obtain ⟨hv, hcle⟩ := hv
  obtain ⟨hv, hcge⟩ := hv
  obtain ⟨hv, hqty⟩ := hv
  obtain ⟨hv, hside⟩ := hv
  obtain ⟨hv, hos⟩ := hv
  obtain ⟨hvh, het⟩ := hv
  obtain ⟨hvh, hseq⟩ := hvh
  obtain ⟨hvh, htgt⟩ := hvh
  obtain ⟨hbeg, hsndr⟩ := hvh
  have hbne : beg ≠ "" := by rw [hbeg]; decide
  have hot' : ∀ s, ot = some s → s ≠ "" := by
    intro s hsx
    rw [hsx] at hot
    have h2 : (decide (s = "1") || decide (s = "2") || decide (s = "3") ||
        decide (s = "4")) = true := hot
    simp only [Bool.or_eq_true, decide_eq_true_eq] at h2
    rcases h2 with ((h | h) | h) | h <;> simp [h]
  have hlq' : ∀ n, lq = some n → n ≠ 0 := by
    intro n hn
    rw [hn] at hlq
    have h2 : decide (0 < n) = true := hlq
    simp only [decide_eq_true_eq] at h2
    omega
  have hlp' : ∀ p, lp = some p → p ≠ 0 := by
    intro p hp
    rw [hp] at hlp
    have h2 : decide (0 < p) = true := hlp
    simp only [decide_eq_true_eq] at h2
    exact ne_of_gt h2
  have horig' : ∀ s, orig = some s → s ≠ "" := by
    intro s hsx
    rw [hsx] at horig
    simpa using horig
  rcases ot with _ | ots <;> rcases lq with _ | lqv <;> rcases lp with _ | lpv <;>
    rcases orig with _ | origv <;>
    simp [er_to_fix_message, er_from_fix_message, fget, List.find?, str_or,
      time_or, opt_str, opt_int, opt_rat, get_str, get_int, get_rat,
      hbne, hot', hlq', hlp', horig', hv0]

/-- C9 (amended): encode-then-decode is the identity on every valid
NewOrderSingle and every valid ExecutionReport whose timestamps carry no
sub-second remainder — the FIX timestamp format keeps only whole seconds —
and, for ExecutionReport, whose `orig_cl_ord_id` is not the empty string
(a falsy value, which the encoder omits and the decoder therefore returns as
`None`). -/
theorem fix_roundtrip_whole_seconds :
    (∀ (now : Dt) (m : FIXNewOrderSingle), valid_new_order_single m = true →
      m.header.sending_time.micro = 0 → m.transact_time.micro = 0 →
      nos_from_fix_message now (nos_to_fix_message m) = some m) ∧
    (∀ (now : Dt) (m : FIXExecutionReport), valid_execution_report m = true →
      m.header.sending_time.micro = 0 → m.orig_cl_ord_id ≠ some "" →
      er_from_fix_message now (er_to_fix_message m) = some m) :=
  ⟨nos_roundtrip_whole_seconds, er_roundtrip_whole_seconds⟩

/-- Witness for `fix_roundtrip_whole_seconds`: concrete valid messages with
whole-second timestamps round-trip to themselves. -/
theorem fix_roundtrip_whole_seconds_witness :
    nos_from_fix_message ⟨9, 9⟩ (nos_to_fix_message nos_whole_sample) =
      some nos_whole_sample ∧
    er_from_fix_message ⟨9, 9⟩ (er_to_fix_message er_whole_sample) =
      some er_whole_sample :=
  ⟨fix_roundtrip_whole_seconds.1 ⟨9, 9⟩ nos_whole_sample (by decide) rfl rfl,
   fix_roundtrip_whole_seconds.2 ⟨9, 9⟩ er_whole_sample (by decide) rfl
     (by decide)⟩

end FixSchemas
